import Mathlib

/-!
Shallow embedding of the gtthread scheduler (src/src/gtthread_sched.c).

Descriptors (struct Thread_t) are heap records identified by their tid;
the ready queue and zombie queue hold descriptor pointers, modelled as
lists of tids resolved against the heap, which captures the aliasing of
one descriptor between the two queues.  The SIGVTALRM mask is a boolean.
Context switching, process exit and the undefined behaviour of popping an
empty steque are recorded in an Outcome value.  Across a context switch
the global state seen when a thread is resumed is produced by the other
threads; it is abstracted as an environment list of observed states fed
to the loops of gtthread_exit (main drain) and gtthread_join (spin).
-/

/-- Lifecycle states: the macros GTTHREAD_RUNNING (0), GTTHREAD_CANCEL (1),
GTTHREAD_DONE (2) of gtthread_sched.c. -/
inductive TState
  | GTTHREAD_RUNNING
  | GTTHREAD_CANCEL
  | GTTHREAD_DONE
deriving DecidableEq, Repr

/-- struct Thread_t: tid, joining, state, proc, arg, retval, ucp.  The entry
routine and argument pointers are opaque numbers; ucpLive records whether the
context record and its stack are still allocated (ucp not NULL). -/
structure thread_t where
  tid : Nat
  joining : Nat
  state : TState
  proc : Nat
  arg : Nat
  retval : Int
  ucpLive : Bool
deriving DecidableEq, Repr

/-- The global data section: ready_queue, zombie_queue (lists of descriptor
pointers, i.e. tids), current, maxtid, and the SIGVTALRM mask.  threads is
the heap of all descriptors ever allocated (they are never freed). -/
structure GtState where
  threads : List thread_t
  ready : List Nat
  zombie : List Nat
  current : Nat
  maxtid : Nat
  masked : Bool
deriving DecidableEq, Repr

/-- Observable outcome of one invocation of a scheduler operation. -/
inductive Outcome
  | ret (rv : Int)        -- the function returned normally to its caller
  | switch (tid : Nat)    -- swapcontext or setcontext installed this tid
  | procExit (status : Int) -- exit() terminated the host process
  | popEmptyUB            -- steque_pop was executed on an empty queue
  | noReturn              -- the modelled window ended inside a loop
deriving DecidableEq, Repr

/-- Result of gtthread_join: fail is the -1 return, ok is the 0 return
carrying the value stored through the status pointer (none when the
pointer is NULL or nothing was stored). -/
inductive JoinRes
  | fail
  | ok (written : Option Int)
  | noReturn
deriving DecidableEq, Repr

/-- Dereference a descriptor pointer: the heap record with this tid.
A dangling tid yields a default record (tid 0, the no-thread sentinel). -/
def findThread (heap : List thread_t) (tid : Nat) : thread_t :=
  (heap.find? fun t => t.tid == tid).getD
    { tid := 0, joining := 0, state := TState.GTTHREAD_RUNNING,
      proc := 0, arg := 0, retval := 0, ucpLive := false }

/-- In-place mutation through a descriptor pointer: rewrite the heap records
carrying this tid. -/
def updateThread (heap : List thread_t) (tid : Nat) (f : thread_t → thread_t) :
    List thread_t :=
  heap.map fun t => if t.tid = tid then f t else t

/-- thread_get (gtthread_sched.c lines 388-408): walk the ready queue, then
the zombie queue, returning the first descriptor with the given tid. -/
def thread_get (s : GtState) (tid : Nat) : Option thread_t :=
  if tid ∈ s.ready then some (findThread s.threads tid)
  else if tid ∈ s.zombie then some (findThread s.threads tid)
  else none

/-- The descriptor built for the caller of gtthread_init: tid 1 (maxtid set
to 1 then post-incremented), state RUNNING, joining 0, a context record
captured with getcontext (no separately allocated stack buffer). -/
def main_thread : thread_t :=
  { tid := 1, joining := 0, state := TState.GTTHREAD_RUNNING,
    proc := 0, arg := 0, retval := 0, ucpLive := true }

/-- gtthread_init (lines 64-116): maxtid := 1; steque_init(&ready_queue);
allocate the main descriptor (tid maxtid++), record it as current, unblock
SIGVTALRM, arm the timer and install the handler.  Note that steque_init is
NOT called on zombie_queue, so the zombie queue keeps its prior contents;
and the main descriptor is not enqueued anywhere.  The function returns to
its caller (no context switch). -/
def gtthread_init (s : GtState) : GtState × Outcome :=
  ( { threads := main_thread :: s.threads,
      ready := [],
      zombie := s.zombie,
      current := 1,
      maxtid := 2,
      masked := false },
    Outcome.ret 0 )

/-- gtthread_create (lines 123-160): block SIGVTALRM; allocate a descriptor
with tid maxtid++ (written to the out-parameter), state RUNNING, joining 0,
the entry routine and argument, a fresh context with a malloc'ed stack;
enqueue it on the ready queue; unblock; return 0.  Result is
(new state, value written to *thread, return code). -/
def gtthread_create (s : GtState) (proc arg : Nat) : GtState × Nat × Int :=
  let t : thread_t :=
    { tid := s.maxtid, joining := 0, state := TState.GTTHREAD_RUNNING,
      proc := proc, arg := arg, retval := 0, ucpLive := true }
  ( { s with
      threads := s.threads ++ [t],
      maxtid := s.maxtid + 1,
      ready := s.ready ++ [s.maxtid],
      masked := false },
    s.maxtid, 0 )

/-- The pop / skip-CANCEL loop of sigvtalrm_handler (lines 367-372):
pop the head; while its state is CANCEL, enqueue it on the zombie queue and
pop again.  The C loop performs the inner pop without an emptiness test, so
exhausting the queue reaches steque_pop on an empty queue; that is the
none result.  Returns (remaining ready queue, zombie queue, popped tid). -/
def popSkipCancel (heap : List thread_t) :
    List Nat → List Nat → List Nat × List Nat × Option Nat
  | [], zombie => ([], zombie, none)
  | h :: rest, zombie =>
    if (findThread heap h).state = TState.GTTHREAD_CANCEL then
      popSkipCancel heap rest (zombie ++ [h])
    else (rest, zombie, some h)

/-- sigvtalrm_handler (lines 357-381): block SIGVTALRM; if the ready queue
is empty, return (without unblocking); otherwise pop with the CANCEL-skip
loop, enqueue the current descriptor at the tail, set the popped descriptor
RUNNING, make it current, unblock, and swapcontext to it. -/
def sigvtalrm_handler (s0 : GtState) : GtState × Outcome :=
  let s := { s0 with masked := true }
  if s.ready = [] then (s, Outcome.ret 0)
  else
    match popSkipCancel s.threads s.ready s.zombie with
    | (ready1, zombie1, none) =>
        ({ s with ready := ready1, zombie := zombie1 }, Outcome.popEmptyUB)
    | (ready1, zombie1, some next) =>
        let prev := s.current
        ( { s with
              threads := updateThread s.threads next
                (fun t => { t with state := TState.GTTHREAD_RUNNING }),
              ready := ready1 ++ [prev],
              zombie := zombie1,
              current := next,
              masked := false },
          Outcome.switch next )

/-- gtthread_yield (lines 253-271): block SIGVTALRM; if the ready queue is
empty, return 0 (without unblocking); otherwise pop the head, enqueue the
current descriptor at the tail, make the popped one current, unblock and
swapcontext to it. -/
def gtthread_yield (s0 : GtState) : GtState × Outcome :=
  let s := { s0 with masked := true }
  match s.ready with
  | [] => (s, Outcome.ret 0)
  | next :: rest =>
      ( { s with ready := rest ++ [s.current], current := next, masked := false },
        Outcome.switch next )

/-- The drain loop of gtthread_exit for the initial thread (lines 218-225):
while the ready queue is non-empty, unblock, call sigvtalrm_handler (which
switches away), re-block on resumption; when the queue is observed empty,
unblock and exit the process.  The environment list supplies the global
state observed at each loop re-entry after a switch. -/
def gtthread_exit_drain (rv : Int) : List GtState → GtState → GtState × Outcome
  | [], s =>
    if s.ready = [] then ({ s with masked := false }, Outcome.procExit rv)
    else
      match sigvtalrm_handler { s with masked := false } with
      | (s1, Outcome.popEmptyUB) => (s1, Outcome.popEmptyUB)
      | (s1, _) => (s1, Outcome.noReturn)
  | r :: env1, s =>
    if s.ready = [] then ({ s with masked := false }, Outcome.procExit rv)
    else
      match sigvtalrm_handler { s with masked := false } with
      | (s1, Outcome.popEmptyUB) => (s1, Outcome.popEmptyUB)
      | (_, _) => gtthread_exit_drain rv env1 { r with masked := true }

/-- gtthread_exit (lines 204-246): block SIGVTALRM; if the ready queue is
empty, unblock and exit the process with the return value (no check of the
caller identity on this path); else if the caller is tid 1, drain the ready
queue by repeated handler calls and then exit the process; otherwise pop
the ready-queue head unconditionally, force its state to RUNNING, make it
current, free the exiting descriptor stack and context record, mark it
DONE, capture the return value, clear its joining field, enqueue it on the
zombie queue, unblock and setcontext to the popped descriptor. -/
def gtthread_exit (env : List GtState) (s0 : GtState) (rv : Int) :
    GtState × Outcome :=
  let s := { s0 with masked := true }
  if s.ready = [] then ({ s with masked := false }, Outcome.procExit rv)
  else if s.current = 1 then gtthread_exit_drain rv env s
  else
    match s.ready with
    | [] => (s, Outcome.popEmptyUB)
    | next :: rest =>
      let prev := s.current
      let heap1 := updateThread s.threads next
        (fun t => { t with state := TState.GTTHREAD_RUNNING })
      let heap2 := updateThread heap1 prev
        (fun t =>
          { t with
            ucpLive := false,
            state := TState.GTTHREAD_DONE,
            retval := rv,
            joining := 0 })
      ( { s with
          threads := heap2,
          ready := rest,
          zombie := s.zombie ++ [prev],
          current := next,
          masked := false },
        Outcome.switch next )

/-- The spin loop of gtthread_join (lines 183-188): while the target state
is RUNNING, unblock, call sigvtalrm_handler, re-block.  The environment
list supplies the global state observed at each loop re-entry; exhausting
it models a window in which the loop is still spinning.  Returns true when
the loop exited because the target was observed non-RUNNING. -/
def joinSpin (target : Nat) : List GtState → GtState → GtState × Bool
  | [], s =>
    if (findThread s.threads target).state = TState.GTTHREAD_RUNNING then
      (s, false)
    else (s, true)
  | r :: env1, s =>
    if (findThread s.threads target).state = TState.GTTHREAD_RUNNING then
      match sigvtalrm_handler { s with masked := false } with
      | (s1, Outcome.popEmptyUB) => (s1, false)
      | (_, _) => joinSpin target env1 { r with masked := true }
    else (s, true)

/-- gtthread_join (lines 166-199): fail (-1) on self-join; fail when the
tid is found in neither queue; fail when the target is already joining the
caller.  Otherwise set the caller joining field to the target tid, spin
while the target is RUNNING, then return 0, storing through a non-NULL
status pointer the value 1 (the GTTHREAD_CANCEL sentinel cast to a
pointer) when the target state is CANCEL, or the captured retval when it
is DONE. -/
def gtthread_join (env : List GtState) (s : GtState) (target : Nat)
    (statusNonNull : Bool) : GtState × JoinRes :=
  if target = s.current then (s, JoinRes.fail)
  else
    match thread_get s target with
    | none => (s, JoinRes.fail)
    | some t =>
      if t.joining = s.current then (s, JoinRes.fail)
      else
        let heap1 := updateThread s.threads s.current
          (fun c => { c with joining := t.tid })
        let s1 := { s with threads := heap1 }
        match joinSpin target env s1 with
        | (s2, false) => (s2, JoinRes.noReturn)
        | (s2, true) =>
          if statusNonNull then
            match (findThread s2.threads target).state with
            | TState.GTTHREAD_CANCEL => (s2, JoinRes.ok (some 1))
            | TState.GTTHREAD_DONE =>
                (s2, JoinRes.ok (some (findThread s2.threads target).retval))
            | TState.GTTHREAD_RUNNING => (s2, JoinRes.ok none)
          else (s2, JoinRes.ok none)

/-- gtthread_equal (lines 277-280). -/
def gtthread_equal (t1 t2 : Nat) : Bool := t1 == t2

/-- gtthread_self (lines 324-327). -/
def gtthread_self (s : GtState) : Nat := s.current

/-- gtthread_cancel (lines 286-319): self-cancel delegates to
gtthread_exit 0; otherwise block SIGVTALRM, look the target up with
thread_get, fail (-1) when absent or already DONE or already CANCEL; else
mark it CANCEL, free its stack and context record, clear its joining
field, enqueue it on the zombie queue (it is NOT removed from the ready
queue), unblock and return 0. -/
def gtthread_cancel (env : List GtState) (s : GtState) (target : Nat) :
    GtState × Outcome :=
  if gtthread_equal s.current target then gtthread_exit env s 0
  else
    let s1 := { s with masked := true }
    match thread_get s1 target with
    | none => ({ s1 with masked := false }, Outcome.ret (-1))
    | some t =>
      if t.state = TState.GTTHREAD_DONE then
        ({ s1 with masked := false }, Outcome.ret (-1))
      else if t.state = TState.GTTHREAD_CANCEL then
        ({ s1 with masked := false }, Outcome.ret (-1))
      else
        let heap1 := updateThread s1.threads target
          (fun u =>
            { u with
              state := TState.GTTHREAD_CANCEL,
              ucpLive := false,
              joining := 0 })
        ( { s1 with
            threads := heap1,
            zombie := s1.zombie ++ [target],
            masked := false },
          Outcome.ret 0 )

/-!  Concrete scheduler states used by counterexamples and witnesses.
They are reachable configurations of the model: a running tid-2 child, a
cancelled descriptor left aliased in the ready queue, and so on. -/

/-- A tid-2 child, created by gtthread_create and still RUNNING. -/
def thr2R : thread_t :=
  { tid := 2, joining := 0, state := TState.GTTHREAD_RUNNING,
    proc := 0, arg := 0, retval := 0, ucpLive := true }

/-- A tid-2 child after gtthread_cancel: state CANCEL, stack and context
record freed. -/
def thr2C : thread_t :=
  { tid := 2, joining := 0, state := TState.GTTHREAD_CANCEL,
    proc := 0, arg := 0, retval := 0, ucpLive := false }

/-- A tid-3 child after gtthread_cancel: state CANCEL, stack and context
record freed. -/
def thr3C : thread_t :=
  { tid := 3, joining := 0, state := TState.GTTHREAD_CANCEL,
    proc := 0, arg := 0, retval := 0, ucpLive := false }

/-- A tid-2 child currently joining tid 3. -/
def thr2J : thread_t :=
  { tid := 2, joining := 3, state := TState.GTTHREAD_RUNNING,
    proc := 0, arg := 0, retval := 0, ucpLive := true }

/-- A stale tid-9 DONE descriptor (for a pre-init global state). -/
def thr9D : thread_t :=
  { tid := 9, joining := 0, state := TState.GTTHREAD_DONE,
    proc := 0, arg := 0, retval := 0, ucpLive := false }

/-- Main is current, child 2 is RUNNING on the ready queue. -/
def sC1 : GtState :=
  { threads := [main_thread, thr2R], ready := [2], zombie := [],
    current := 1, maxtid := 3, masked := false }

/-- Child 2 is current and the ready queue is empty. -/
def sC2 : GtState :=
  { threads := [main_thread, thr2R], ready := [], zombie := [],
    current := 2, maxtid := 3, masked := false }

/-- Child 2 is current; child 3 was cancelled while on the ready queue, so
it sits at the head of the ready queue (state CANCEL, context freed) and is
also on the zombie queue; main is behind it on the ready queue. -/
def sC3 : GtState :=
  { threads := [main_thread, thr2R, thr3C], ready := [3, 1], zombie := [3],
    current := 2, maxtid := 4, masked := false }

/-- Main is current; the only ready descriptor is the cancelled child 2,
which is also on the zombie queue. -/
def sC4 : GtState :=
  { threads := [main_thread, thr2C], ready := [2], zombie := [2],
    current := 1, maxtid := 3, masked := false }

/-- Main alone, empty ready queue, SIGVTALRM not blocked. -/
def sC5 : GtState :=
  { threads := [main_thread], ready := [], zombie := [],
    current := 1, maxtid := 2, masked := false }

/-- A pre-gtthread_init global state whose zombie queue is non-empty. -/
def sC8 : GtState :=
  { threads := [thr9D], ready := [7], zombie := [9],
    current := 9, maxtid := 10, masked := false }

/-- Main is current; child 2 is RUNNING on the ready queue with its joining
field naming tid 3. -/
def sC10 : GtState :=
  { threads := [main_thread, thr2J], ready := [2], zombie := [],
    current := 1, maxtid := 4, masked := false }

/-- Claim C1, counterexample: gtthread_cancel of the RUNNING, non-current
descriptor 2 succeeds (returns 0) and enqueues 2 on the zombie queue, but 2
is still on the ready queue afterwards — the descriptor is in both queues
at once, so it is not in at most one of current, ready, zombie, and it has
not left the ready queue. -/
theorem C1_counterexample :
    (gtthread_cancel [] sC1 2).2 = Outcome.ret 0 ∧
    (gtthread_cancel [] sC1 2).1.ready = [2] ∧
    (gtthread_cancel [] sC1 2).1.zombie = [2] ∧
    (findThread (gtthread_cancel [] sC1 2).1.threads 2).state =
      TState.GTTHREAD_CANCEL := by decide

/-- Claim C2, counterexample: gtthread_exit called by the non-initial
thread 2 with an empty ready queue terminates the host process — the
empty-queue branch of gtthread_exit never tests the caller identity. -/
theorem C2_counterexample :
    sC2.current ≠ 1 ∧ (gtthread_exit [] sC2 7).2 = Outcome.procExit 7 := by
  decide

/-- Claim C3, failing input evaluated: the non-initial thread 2 calls
gtthread_exit while the ready-queue head is descriptor 3, whose state is
CANCEL and whose stack and context record were already freed by
gtthread_cancel.  The code pops 3 unconditionally, forces its state to
RUNNING, and performs setcontext on its freed (NULL) context. -/
theorem C3_bug :
    (findThread sC3.threads 3).state = TState.GTTHREAD_CANCEL ∧
    (findThread sC3.threads 3).ucpLive = false ∧
    (gtthread_exit [] sC3 9).2 = Outcome.switch 3 ∧
    (gtthread_exit [] sC3 9).1.current = 3 ∧
    (findThread (gtthread_exit [] sC3 9).1.threads 3).state =
      TState.GTTHREAD_RUNNING ∧
    (findThread (gtthread_exit [] sC3 9).1.threads 3).ucpLive = false := by
  decide

/-- Claim C4, failing input evaluated: the preemption handler fires while
the ready queue holds exactly one descriptor, the cancelled child 2.  The
skip loop moves 2 to the zombie queue (a second time) and then executes
steque_pop on the now-empty ready queue instead of unmasking and
returning. -/
theorem C4_bug :
    (sigvtalrm_handler sC4).2 = Outcome.popEmptyUB ∧
    (sigvtalrm_handler sC4).1.zombie = [2, 2] := by decide

/-- Claim C5, failing input evaluated: with an empty ready queue both
gtthread_yield and sigvtalrm_handler block SIGVTALRM on entry and then
return without unblocking it, so the caller resumes with the preemption
signal still masked. -/
theorem C5_bug :
    (gtthread_yield sC5).2 = Outcome.ret 0 ∧
    (gtthread_yield sC5).1.masked = true ∧
    (sigvtalrm_handler sC5).2 = Outcome.ret 0 ∧
    (sigvtalrm_handler sC5).1.masked = true := by decide

/-- Claim C8, counterexample: gtthread_init calls steque_init only on the
ready queue; applied to a global state whose zombie queue is non-empty it
leaves the zombie queue untouched, so init does not initialize the zombie
queue to empty. -/
theorem C8_counterexample :
    (gtthread_init sC8).1.ready = [] ∧
    (gtthread_init sC8).1.zombie = [9] ∧
    (gtthread_init sC8).1.zombie ≠ [] := by decide

/-- Claim C10, counterexample: descriptor 2 has joining = 3, and
gtthread_cancel of 2 (called by main, not by thread 2 and not via
gtthread_exit) resets that joining field to 0 — so gtthread_exit of the
owner is not the only operation that clears a joining field. -/
theorem C10_counterexample :
    (findThread sC10.threads 2).joining = 3 ∧
    (gtthread_cancel [] sC10 2).2 = Outcome.ret 0 ∧
    (findThread (gtthread_cancel [] sC10 2).1.threads 2).joining = 0 := by
  decide

/-!  Helper lemmas about heap lookup and update. -/

/-- find? commutes with updateThread when the update preserves tids. -/
theorem find?_updateThread (heap : List thread_t) (n p : Nat)
    (f : thread_t → thread_t) (hf : ∀ u, (f u).tid = u.tid) :
    ((updateThread heap n f).find? fun u => u.tid == p) =
      ((heap.find? fun u => u.tid == p).map
        fun t => if t.tid = n then f t else t) := by
  unfold updateThread
  rw [List.find?_map (fun t => if t.tid = n then f t else t) heap]
  have hcomp : ((fun u : thread_t => u.tid == p) ∘
      fun t => if t.tid = n then f t else t) = fun u : thread_t => u.tid == p := by
    funext u
    by_cases h : u.tid = n
    · simp [Function.comp, h, hf u]
    · simp [Function.comp, h]
  rw [hcomp]

/-- Updating one descriptor does not change the record seen for another
tid. -/
theorem findThread_updateThread_ne (heap : List thread_t) (n p : Nat)
    (f : thread_t → thread_t) (hf : ∀ u, (f u).tid = u.tid) (hne : n ≠ p) :
    findThread (updateThread heap n f) p = findThread heap p := by
  unfold findThread
  rw [find?_updateThread heap n p f hf]
  cases h : heap.find? fun u => u.tid == p with
  | none => rfl
  | some r =>
    have hr : r.tid = p := by simpa using List.find?_some h
    have hrn : ¬ r.tid = n := by
      rw [hr]
      exact fun hh => hne hh.symm
    simp [hrn]

/-- Updating a descriptor present in the heap is seen by a later lookup. -/
theorem findThread_updateThread_self (heap : List thread_t) (n : Nat)
    (f : thread_t → thread_t) (t : thread_t) (hf : ∀ u, (f u).tid = u.tid)
    (h : (heap.find? fun u => u.tid == n) = some t) :
    findThread (updateThread heap n f) n = f t := by
  unfold findThread
  rw [find?_updateThread heap n n f hf, h]
  have ht : t.tid = n := by simpa using List.find?_some h
  simp [ht]

/-- A descriptor appended behind records with other tids is found. -/
theorem findThread_append_fresh (heap : List thread_t) (t : thread_t)
    (h : ∀ u ∈ heap, u.tid ≠ t.tid) :
    findThread (heap ++ [t]) t.tid = t := by
  unfold findThread
  rw [List.find?_append]
  have hnone : (heap.find? fun u => u.tid == t.tid) = none :=
    List.find?_eq_none.mpr fun x hx => by simpa using h x hx
  rw [hnone]
  simp

/-- Claim C8, amended: gtthread_init empties the ready queue, leaves the
zombie queue exactly as it was (the zombie queue is empty at the mandated
first call only because file-scope statics are zero-initialized, not
because init initializes it), enrolls the caller as the tid-1 descriptor
in state RUNNING with joining 0, records it as current, and returns to its
caller without a context switch. -/
theorem C8_amended (s : GtState) :
    (gtthread_init s).1.ready = [] ∧
    (gtthread_init s).1.zombie = s.zombie ∧
    (gtthread_init s).1.current = 1 ∧
    findThread (gtthread_init s).1.threads 1 = main_thread ∧
    main_thread.state = TState.GTTHREAD_RUNNING ∧
    main_thread.joining = 0 ∧ main_thread.tid = 1 ∧
    (gtthread_init s).2 = Outcome.ret 0 := by
  refine ⟨rfl, rfl, rfl, ?_, rfl, rfl, rfl, rfl⟩
  unfold gtthread_init findThread
  simp [main_thread]

/-- Claim C1, amended: gtthread_cancel of a non-current target that sits on
the ready queue with state RUNNING marks it CANCEL, frees its stack and
context record, clears its joining field and enqueues it on the zombie
queue, but does NOT remove it from the ready queue: until the preemption
handler later discards it during dispatch, the descriptor is in both the
ready queue and the zombie queue, so a descriptor is not always in at most
one of current, ready and zombie. -/
theorem C1_amended (s : GtState) (target : Nat) (t : thread_t)
    (hcur : s.current ≠ target)
    (hmem : target ∈ s.ready)
    (hfind : (s.threads.find? fun u => u.tid == target) = some t)
    (hrun : t.state = TState.GTTHREAD_RUNNING) :
    (gtthread_cancel [] s target).2 = Outcome.ret 0 ∧
    (gtthread_cancel [] s target).1.ready = s.ready ∧
    (gtthread_cancel [] s target).1.zombie = s.zombie ++ [target] ∧
    target ∈ (gtthread_cancel [] s target).1.ready ∧
    target ∈ (gtthread_cancel [] s target).1.zombie ∧
    (findThread (gtthread_cancel [] s target).1.threads target).state =
      TState.GTTHREAD_CANCEL ∧
    (findThread (gtthread_cancel [] s target).1.threads target).ucpLive =
      false ∧
    (findThread (gtthread_cancel [] s target).1.threads target).joining =
      0 := by
  have hft : findThread s.threads target = t := by
    unfold findThread
    rw [hfind]
    rfl
  have hget : thread_get { s with masked := true } target = some t := by
    unfold thread_get
    simp [hmem, hft]
  have hd : t.state ≠ TState.GTTHREAD_DONE := by
    rw [hrun]
    exact fun h => TState.noConfusion h
  have hc : t.state ≠ TState.GTTHREAD_CANCEL := by
    rw [hrun]
    exact fun h => TState.noConfusion h
  have hupd :
      findThread
        (updateThread s.threads target
          fun u =>
            { u with
              state := TState.GTTHREAD_CANCEL,
              ucpLive := false,
              joining := 0 }) target =
      { t with
        state := TState.GTTHREAD_CANCEL,
        ucpLive := false,
        joining := 0 } :=
    findThread_updateThread_self s.threads target _ t (fun u => rfl) hfind
  simp only [gtthread_cancel, gtthread_equal]
  rw [if_neg (by simpa using hcur)]
  rw [hget]
  simp only [if_neg hd, if_neg hc]
  simp [hupd, hmem]

/-- Claim C1 witness: the amended cancel behaviour instantiated at sC1
(main current, child 2 RUNNING on the ready queue). -/
theorem C1_witness :
    (gtthread_cancel [] sC1 2).2 = Outcome.ret 0 ∧
    (gtthread_cancel [] sC1 2).1.ready = sC1.ready ∧
    (gtthread_cancel [] sC1 2).1.zombie = sC1.zombie ++ [2] ∧
    2 ∈ (gtthread_cancel [] sC1 2).1.ready ∧
    2 ∈ (gtthread_cancel [] sC1 2).1.zombie ∧
    (findThread (gtthread_cancel [] sC1 2).1.threads 2).state =
      TState.GTTHREAD_CANCEL ∧
    (findThread (gtthread_cancel [] sC1 2).1.threads 2).ucpLive = false ∧
    (findThread (gtthread_cancel [] sC1 2).1.threads 2).joining = 0 :=
  C1_amended sC1 2 thr2R (by decide) (by decide) (by decide) (by decide)

/-- The drain loop of gtthread_exit terminates the host process only when
the ready queue is observed empty: at entry, or at one of the states
observed after a handler-induced switch. -/
theorem drain_procExit (rv : Int) :
    ∀ (env : List GtState) (s : GtState),
      (gtthread_exit_drain rv env s).2 = Outcome.procExit rv →
      s.ready = [] ∨ ∃ r ∈ env, r.ready = [] := by
  intro env
  induction env with
  | nil =>
    intro s h
    by_cases hr : s.ready = []
    · exact Or.inl hr
    · exfalso
      simp only [gtthread_exit_drain, if_neg hr] at h
      rcases hh : sigvtalrm_handler { s with masked := false } with ⟨s1, o⟩
      rw [hh] at h
      cases o <;> simp at h
  | cons r env1 ih =>
    intro s h
    by_cases hr : s.ready = []
    · exact Or.inl hr
    · simp only [gtthread_exit_drain, if_neg hr] at h
      rcases hh : sigvtalrm_handler { s with masked := false } with ⟨s1, o⟩
      rw [hh] at h
      cases o <;>
        first
        | exact (ih { r with masked := true } h).elim
            (fun h1 => Or.inr ⟨r, List.mem_cons_self r env1, h1⟩)
            (fun hx => hx.elim fun x hhx =>
              Or.inr ⟨x, List.mem_cons_of_mem r hhx.1, hhx.2⟩)
        | simp at h

/-- Claim C2, amended: gtthread_exit terminates the host process
immediately whenever the ready queue is empty at entry, REGARDLESS of the
caller identity (the empty-queue branch does not test the caller); when
the caller is the initial thread (tid 1) and the ready queue is non-empty
it repeatedly invokes the preemption handler and terminates the process
only upon observing an empty ready queue; a non-initial caller with a
non-empty ready queue never terminates the host process (it switches to
the popped descriptor). -/
theorem C2_amended (env : List GtState) (s : GtState) (rv : Int) :
    (s.ready = [] → (gtthread_exit env s rv).2 = Outcome.procExit rv) ∧
    (s.ready ≠ [] → s.current ≠ 1 →
      (∃ n, (gtthread_exit env s rv).2 = Outcome.switch n) ∧
      ∀ st, (gtthread_exit env s rv).2 ≠ Outcome.procExit st) ∧
    (s.ready ≠ [] → s.current = 1 →
      (gtthread_exit env s rv).2 = Outcome.procExit rv →
      ∃ r ∈ env, r.ready = []) := by
  refine ⟨?_, ?_, ?_⟩
  · intro h
    simp [gtthread_exit, h]
  · intro h hc
    rcases hr : s.ready with _ | ⟨next, rest⟩
    · exact absurd hr h
    · constructor
      · exact ⟨next, by simp [gtthread_exit, hr, hc]⟩
      · intro st
        simp [gtthread_exit, hr, hc]
  · intro h hc hp
    have hd : (gtthread_exit_drain rv env { s with masked := true }).2 =
        Outcome.procExit rv := by
      simpa [gtthread_exit, h, hc] using hp
    rcases drain_procExit rv env { s with masked := true } hd with h1 | h2
    · exact absurd h1 h
    · exact h2

/-- Claim C2 witness: the amended exit behaviour at concrete states — an
empty ready queue exits the process, a non-initial caller with a non-empty
queue switches, and a tid-1 drain that terminates did observe an empty
ready queue. -/
theorem C2_witness :
    (gtthread_exit [] sC5 3).2 = Outcome.procExit 3 ∧
    (∃ n, (gtthread_exit [] sC3 7).2 = Outcome.switch n) ∧
    (∃ r ∈ [sC5], r.ready = []) :=
  ⟨(C2_amended [] sC5 3).1 (by decide),
   ((C2_amended [] sC3 7).2.1 (by decide) (by decide)).1,
   (C2_amended [sC5] sC1 6).2.2 (by decide) (by decide) (by decide)⟩

/-- Claim C9: gtthread_init gives the caller identity 1 and leaves the
counter at 2; gtthread_create, whenever every existing descriptor tid is
below maxtid (the discipline the counter maintains), assigns tid maxtid —
strictly larger than, and so distinct from, every previously assigned
identity — writes it to the out-parameter, appends the new RUNNING
descriptor at the tail of the ready queue, returns 0, increments the
counter, and preserves the discipline. -/
theorem C9_identities :
    (∀ s : GtState,
      (gtthread_init s).1.current = 1 ∧
      (gtthread_init s).1.maxtid = 2 ∧
      findThread (gtthread_init s).1.threads 1 = main_thread ∧
      main_thread.tid = 1) ∧
    (∀ (s : GtState) (p a : Nat),
      (∀ u ∈ s.threads, u.tid < s.maxtid) →
      (gtthread_create s p a).2.1 = s.maxtid ∧
      (gtthread_create s p a).2.2 = 0 ∧
      (∀ u ∈ s.threads, u.tid < (gtthread_create s p a).2.1) ∧
      (∀ u ∈ s.threads, u.tid ≠ (gtthread_create s p a).2.1) ∧
      (gtthread_create s p a).1.maxtid = s.maxtid + 1 ∧
      (gtthread_create s p a).1.ready = s.ready ++ [s.maxtid] ∧
      (findThread (gtthread_create s p a).1.threads s.maxtid).state =
        TState.GTTHREAD_RUNNING ∧
      (findThread (gtthread_create s p a).1.threads s.maxtid).joining = 0 ∧
      (∀ u ∈ (gtthread_create s p a).1.threads,
        u.tid < (gtthread_create s p a).1.maxtid)) := by
  constructor
  · intro s
    refine ⟨rfl, rfl, ?_, rfl⟩
    unfold gtthread_init findThread
    simp [main_thread]
  · intro s p a hdisc
    have hfresh : ∀ u ∈ s.threads, u.tid ≠ s.maxtid :=
      fun u hu => Nat.ne_of_lt (hdisc u hu)
    have hfound :
        findThread
          (s.threads ++
            [{ tid := s.maxtid, joining := 0,
               state := TState.GTTHREAD_RUNNING, proc := p, arg := a,
               retval := 0, ucpLive := true }]) s.maxtid =
        { tid := s.maxtid, joining := 0, state := TState.GTTHREAD_RUNNING,
          proc := p, arg := a, retval := 0, ucpLive := true } :=
      findThread_append_fresh s.threads _ hfresh
    refine ⟨rfl, rfl, fun u hu => hdisc u hu, hfresh, rfl, rfl, ?_, ?_, ?_⟩
    · show (findThread
          (s.threads ++
            [{ tid := s.maxtid, joining := 0,
               state := TState.GTTHREAD_RUNNING, proc := p, arg := a,
               retval := 0, ucpLive := true }]) s.maxtid).state =
        TState.GTTHREAD_RUNNING
      rw [hfound]
    · show (findThread
          (s.threads ++
            [{ tid := s.maxtid, joining := 0,
               state := TState.GTTHREAD_RUNNING, proc := p, arg := a,
               retval := 0, ucpLive := true }]) s.maxtid).joining = 0
      rw [hfound]
    · intro u hu
      show u.tid < s.maxtid + 1
      rcases List.mem_append.mp hu with h1 | h2
      · exact Nat.lt_trans (hdisc u h1) (Nat.lt_succ_self _)
      · have huq : u =
            { tid := s.maxtid, joining := 0,
              state := TState.GTTHREAD_RUNNING, proc := p, arg := a,
              retval := 0, ucpLive := true } := by simpa using h2
        rw [huq]
        exact Nat.lt_succ_self _

/-- Claim C9 witness: creating a thread in the fresh post-init state sC5
assigns identity 2, larger than the existing identity 1, enqueues it
RUNNING and returns 0. -/
theorem C9_witness :
    (gtthread_create sC5 0 0).2.1 = 2 ∧
    (gtthread_create sC5 0 0).2.2 = 0 ∧
    (∀ u ∈ sC5.threads, u.tid < (gtthread_create sC5 0 0).2.1) ∧
    (∀ u ∈ sC5.threads, u.tid ≠ (gtthread_create sC5 0 0).2.1) ∧
    (gtthread_create sC5 0 0).1.maxtid = 3 ∧
    (gtthread_create sC5 0 0).1.ready = sC5.ready ++ [2] ∧
    (findThread (gtthread_create sC5 0 0).1.threads 2).state =
      TState.GTTHREAD_RUNNING ∧
    (findThread (gtthread_create sC5 0 0).1.threads 2).joining = 0 ∧
    (∀ u ∈ (gtthread_create sC5 0 0).1.threads,
      u.tid < (gtthread_create sC5 0 0).1.maxtid) := by
  have h := (C9_identities).2 sC5 0 0 (by decide)
  exact h

/-- Claim C6: gtthread_join returns the failure code -1 (the fail result),
leaving the whole scheduler state unchanged, exactly when the target
equals the caller (self-join), or the target tid is found in neither the
ready queue nor the zombie queue (unknown identity), or the target
descriptor is already joining the caller (reciprocal join). -/
theorem C6_join_failure (env : List GtState) (s : GtState) (target : Nat)
    (ns : Bool) :
    ((gtthread_join env s target ns).2 = JoinRes.fail ↔
      (target = s.current ∨ thread_get s target = none ∨
        ∃ t, thread_get s target = some t ∧ t.joining = s.current)) ∧
    ((gtthread_join env s target ns).2 = JoinRes.fail →
      (gtthread_join env s target ns).1 = s) := by
  by_cases h1 : target = s.current
  · refine ⟨⟨fun _ => Or.inl h1, fun _ => ?_⟩, fun _ => ?_⟩
    · simp [gtthread_join, h1]
    · simp [gtthread_join, h1]
  · cases h2 : thread_get s target with
    | none =>
      refine ⟨⟨fun _ => Or.inr (Or.inl rfl), fun _ => ?_⟩, fun _ => ?_⟩
      · simp [gtthread_join, h1, h2]
      · simp [gtthread_join, h1, h2]
    | some t =>
      by_cases h3 : t.joining = s.current
      · refine ⟨⟨fun _ => Or.inr (Or.inr ⟨t, rfl, h3⟩), fun _ => ?_⟩,
          fun _ => ?_⟩
        · simp [gtthread_join, h1, h2, h3]
        · simp [gtthread_join, h1, h2, h3]
      · have hstep : (gtthread_join env s target ns).2 ≠ JoinRes.fail := by
          simp only [gtthread_join, h2, if_neg h1, if_neg h3]
          rcases hsp : joinSpin target env
              { s with
                threads := updateThread s.threads s.current
                  fun c => { c with joining := t.tid } } with ⟨s2, b⟩
          cases b
          · simp
          · cases ns
            · simp
            · cases hstate : (findThread s2.threads target).state <;> simp [hstate]
        refine ⟨⟨fun hf => absurd hf hstep, fun hor => ?_⟩,
          fun hf => absurd hf hstep⟩
        rcases hor with ha | hb | ⟨t2, ht2, hj⟩
        · exact absurd ha h1
        · exact Option.noConfusion hb
        · have ht : t = t2 := by
            simpa using ht2
          rw [← ht] at hj
          exact absurd hj h3

/-- Claim C6 witness: a self-join at the concrete state sC1 fails and
leaves the state unchanged. -/
theorem C6_witness :
    (gtthread_join [] sC1 1 true).2 = JoinRes.fail ∧
    (gtthread_join [] sC1 1 true).1 = sC1 := by
  have hf := (C6_join_failure [] sC1 1 true).1.mpr (Or.inl (by decide))
  exact ⟨hf, (C6_join_failure [] sC1 1 true).2 hf⟩

/-- When the join spin loop reports completion, the target was observed
with a non-RUNNING state in the final global state. -/
theorem joinSpin_true (target : Nat) :
    ∀ (env : List GtState) (s s2 : GtState),
      joinSpin target env s = (s2, true) →
      (findThread s2.threads target).state ≠ TState.GTTHREAD_RUNNING := by
  intro env
  induction env with
  | nil =>
    intro s s2 h
    by_cases hg : (findThread s.threads target).state = TState.GTTHREAD_RUNNING
    · simp only [joinSpin, if_pos hg] at h
      simp at h
    · simp only [joinSpin, if_neg hg] at h
      have hs : s = s2 := congrArg Prod.fst h
      rw [← hs]
      exact hg
  | cons r env1 ih =>
    intro s s2 h
    by_cases hg : (findThread s.threads target).state = TState.GTTHREAD_RUNNING
    · simp only [joinSpin, if_pos hg] at h
      rcases hh : sigvtalrm_handler { s with masked := false } with ⟨s1, o⟩
      rw [hh] at h
      cases o <;>
        first
        | exact ih { r with masked := true } s2 h
        | simp at h
    · simp only [joinSpin, if_neg hg] at h
      have hs : s = s2 := congrArg Prod.fst h
      rw [← hs]
      exact hg

/-- Evaluation of gtthread_join on a target that is already terminal and
passes the three failure checks: the only state change is the write of the
caller joining field, and the returned value is determined by the target
state. -/
theorem join_terminal_eval (s : GtState) (target : Nat)
    (h1 : target ≠ s.current)
    (hmem : target ∈ s.ready ∨ target ∈ s.zombie)
    (h3 : (findThread s.threads target).joining ≠ s.current)
    (hterm : (findThread s.threads target).state ≠ TState.GTTHREAD_RUNNING) :
    gtthread_join [] s target true =
      ({ s with
          threads := updateThread s.threads s.current
            fun c => { c with joining := (findThread s.threads target).tid } },
        match (findThread s.threads target).state with
        | TState.GTTHREAD_CANCEL => JoinRes.ok (some 1)
        | TState.GTTHREAD_DONE =>
            JoinRes.ok (some (findThread s.threads target).retval)
        | TState.GTTHREAD_RUNNING => JoinRes.ok none) := by
  have h2 : thread_get s target = some (findThread s.threads target) := by
    unfold thread_get
    rcases hmem with hm | hm
    · simp [hm]
    · by_cases hr : target ∈ s.ready
      · simp [hr]
      · simp [hr, hm]
  have hne : s.current ≠ target := fun hh => h1 hh.symm
  have hfind1 :
      findThread
        (updateThread s.threads s.current
          fun c => { c with joining := (findThread s.threads target).tid })
        target =
      findThread s.threads target :=
    findThread_updateThread_ne s.threads s.current target _ (fun u => rfl) hne
  simp only [gtthread_join, h2, if_neg h1, if_neg h3, joinSpin, hfind1,
    if_neg hterm, if_true]
  cases hstate : (findThread s.threads target).state <;> simp [hstate]

/-- Claim C7: gtthread_join returns 0 only once the target state is
terminal: whenever the result is ok, the target is observed non-RUNNING in
the final state, and with a non-null destination the stored value is the
cancel sentinel 1 when that state is CANCEL and the captured return value
when it is DONE; moreover a join of an already-terminal target succeeds
and a repeated join with a non-null destination observes the same stored
value as the first. -/
theorem C7_join_result :
    (∀ (env : List GtState) (s : GtState) (target : Nat) (ns : Bool)
       (s2 : GtState) (w : Option Int),
      gtthread_join env s target ns = (s2, JoinRes.ok w) →
      (findThread s2.threads target).state ≠ TState.GTTHREAD_RUNNING ∧
      (ns = true →
        ((findThread s2.threads target).state = TState.GTTHREAD_CANCEL →
          w = some 1) ∧
        ((findThread s2.threads target).state = TState.GTTHREAD_DONE →
          w = some (findThread s2.threads target).retval))) ∧
    (∀ (s : GtState) (target : Nat),
      target ≠ s.current →
      (target ∈ s.ready ∨ target ∈ s.zombie) →
      (findThread s.threads target).joining ≠ s.current →
      (findThread s.threads target).state ≠ TState.GTTHREAD_RUNNING →
      ∃ v : Int,
        (gtthread_join [] s target true).2 = JoinRes.ok (some v) ∧
        (gtthread_join [] (gtthread_join [] s target true).1
          target true).2 = JoinRes.ok (some v)) := by
  constructor
  · intro env s target ns s2 w h
    by_cases h1 : target = s.current
    · simp [gtthread_join, h1] at h
    · cases h2 : thread_get s target with
      | none => simp [gtthread_join, h1, h2] at h
      | some t =>
        by_cases h3 : t.joining = s.current
        · simp [gtthread_join, h1, h2, h3] at h
        · simp only [gtthread_join, h2, if_neg h1, if_neg h3] at h
          rcases hsp : joinSpin target env
              { s with
                threads := updateThread s.threads s.current
                  fun c => { c with joining := t.tid } } with ⟨s2x, b⟩
          rw [hsp] at h
          cases b
          · simp at h
          · have hterm := joinSpin_true target env _ s2x hsp
            dsimp only at h
            cases ns
            · rw [if_neg (by simp)] at h
              have hs2 : s2x = s2 := congrArg Prod.fst h
              have hw : JoinRes.ok (none : Option Int) = JoinRes.ok w :=
                congrArg Prod.snd h
              rw [← hs2]
              refine ⟨hterm, ?_⟩
              intro hns
              simp at hns
            · rw [if_pos rfl] at h
              cases hstate : (findThread s2x.threads target).state
              · exact absurd hstate hterm
              · rw [hstate] at h
                have hs2 : s2x = s2 := congrArg Prod.fst h
                have hw : JoinRes.ok (some (1 : Int)) = JoinRes.ok w :=
                  congrArg Prod.snd h
                have hw2 : some (1 : Int) = w := by
                  injection hw
                rw [← hs2, ← hw2]
                refine ⟨hterm, fun _ => ⟨fun _ => rfl, fun hd => ?_⟩⟩
                rw [hstate] at hd
                cases hd
              · rw [hstate] at h
                have hs2 : s2x = s2 := congrArg Prod.fst h
                have hw : JoinRes.ok (some (findThread s2x.threads
                    target).retval) = JoinRes.ok w := congrArg Prod.snd h
                have hw2 : some (findThread s2x.threads target).retval = w := by
                  injection hw
                rw [← hs2, ← hw2]
                refine ⟨hterm, fun _ => ⟨fun hc => ?_, fun _ => rfl⟩⟩
                rw [hstate] at hc
                cases hc
  · intro s target h1 hmem h3 hterm
    have heval := join_terminal_eval s target h1 hmem h3 hterm
    have hfind1 :
        findThread (gtthread_join [] s target true).1.threads target =
        findThread s.threads target := by
      rw [heval]
      exact findThread_updateThread_ne s.threads s.current target _
        (fun u => rfl) (fun hh => h1 hh.symm)
    have hcur : (gtthread_join [] s target true).1.current = s.current := by
      rw [heval]
    have hready : (gtthread_join [] s target true).1.ready = s.ready := by
      rw [heval]
    have hzombie : (gtthread_join [] s target true).1.zombie = s.zombie := by
      rw [heval]
    have heval2 := join_terminal_eval (gtthread_join [] s target true).1
      target (by rw [hcur]; exact h1)
      (by rw [hready, hzombie]; exact hmem)
      (by rw [hfind1, hcur]; exact h3)
      (by rw [hfind1]; exact hterm)
    cases hstate : (findThread s.threads target).state
    · exact absurd hstate hterm
    · refine ⟨1, ?_, ?_⟩
      · rw [heval]
        simp [hstate]
      · rw [heval2]
        simp [hfind1, hstate]
    · refine ⟨(findThread s.threads target).retval, ?_, ?_⟩
      · rw [heval]
        simp [hstate]
      · rw [heval2]
        simp [hfind1, hstate]

/-- Claim C7 witness: joining the already-cancelled descriptor 2 from main
at the concrete state sC4 yields the cancel sentinel 1, and a repeated
join yields it again. -/
theorem C7_witness :
    ∃ v : Int,
      (gtthread_join [] sC4 2 true).2 = JoinRes.ok (some v) ∧
      (gtthread_join [] (gtthread_join [] sC4 2 true).1 2 true).2 =
        JoinRes.ok (some v) :=
  (C7_join_result).2 sC4 2 (by decide) (Or.inl (by decide)) (by decide)
    (by decide)

/-- A tid-3 child, RUNNING, used as the current thread of sC10b. -/
def thr3R : thread_t :=
  { tid := 3, joining := 0, state := TState.GTTHREAD_RUNNING,
    proc := 0, arg := 0, retval := 0, ucpLive := true }

/-- Thread 3 is current while thread 2 is blocked joining 3. -/
def sC10b : GtState :=
  { threads := [main_thread, thr2J, thr3R], ready := [2, 1], zombie := [],
    current := 3, maxtid := 4, masked := false }

/-- Claim C10, amended: a gtthread_join that reaches the write of the
caller joining field leaves that field equal to the target identity when
it returns — join never resets it to 0 — so a later gtthread_join by the
target against the former caller returns failure; the field is cleared
when the owning thread later calls gtthread_exit, or when another thread
successfully cancels the owner (gtthread_cancel also clears the joining
field of its target). -/
theorem C10_joining_field :
    (∀ (s : GtState) (target : Nat) (c : thread_t),
      target ≠ s.current →
      (target ∈ s.ready ∨ target ∈ s.zombie) →
      (findThread s.threads target).joining ≠ s.current →
      (findThread s.threads target).state ≠ TState.GTTHREAD_RUNNING →
      (findThread s.threads target).tid = target →
      (s.threads.find? fun u => u.tid == s.current) = some c →
      (findThread (gtthread_join [] s target true).1.threads
        s.current).joining = target) ∧
    (∀ (env : List GtState) (s : GtState) (a : Nat) (ns : Bool),
      a ≠ s.current →
      (a ∈ s.ready ∨ a ∈ s.zombie) →
      (findThread s.threads a).joining = s.current →
      (gtthread_join env s a ns).2 = JoinRes.fail) ∧
    (∀ (s : GtState) (rv : Int) (next : Nat) (rest : List Nat)
       (c : thread_t),
      s.ready = next :: rest →
      s.current ≠ 1 →
      next ≠ s.current →
      (s.threads.find? fun u => u.tid == s.current) = some c →
      (findThread (gtthread_exit [] s rv).1.threads s.current).joining = 0 ∧
      (findThread (gtthread_exit [] s rv).1.threads s.current).state =
        TState.GTTHREAD_DONE) ∧
    (∀ (s : GtState) (target : Nat) (t : thread_t),
      s.current ≠ target →
      target ∈ s.ready →
      (s.threads.find? fun u => u.tid == target) = some t →
      t.state = TState.GTTHREAD_RUNNING →
      (findThread (gtthread_cancel [] s target).1.threads target).joining =
        0) := by
  refine ⟨?_, ?_, ?_, ?_⟩
  · intro s target c h1 hmem h3 hterm ht hc
    have heval := join_terminal_eval s target h1 hmem h3 hterm
    rw [heval]
    dsimp only
    rw [findThread_updateThread_self s.threads s.current
      (fun u => { u with joining := (findThread s.threads target).tid }) c
      (fun u => rfl) hc]
    exact ht
  · intro env s a ns hne hmem hj
    have hft : thread_get s a = some (findThread s.threads a) := by
      unfold thread_get
      rcases hmem with hm | hm
      · simp [hm]
      · by_cases hr : a ∈ s.ready
        · simp [hr]
        · simp [hr, hm]
    simp [gtthread_join, hne, hft, hj]
  · intro s rv next rest c hready hcur hnc hc
    have hmain :
        (gtthread_exit [] s rv).1.threads =
          updateThread
            (updateThread s.threads next
              fun t => { t with state := TState.GTTHREAD_RUNNING })
            s.current
            fun t =>
              { t with
                ucpLive := false,
                state := TState.GTTHREAD_DONE,
                retval := rv,
                joining := 0 } := by
      simp [gtthread_exit, hready, hcur]
    have hcc : c.tid = s.current := by simpa using List.find?_some hc
    have hcnext : ¬ c.tid = next := by
      rw [hcc]
      exact fun hh => hnc hh.symm
    have hfind2 :
        ((updateThread s.threads next
          fun t => { t with state := TState.GTTHREAD_RUNNING }).find?
            fun u => u.tid == s.current) = some c := by
      rw [find?_updateThread s.threads next s.current
        (fun t => { t with state := TState.GTTHREAD_RUNNING })
        (fun u => rfl), hc]
      simp [hcnext]
    rw [hmain, findThread_updateThread_self
      (updateThread s.threads next
        fun t => { t with state := TState.GTTHREAD_RUNNING })
      s.current
      (fun t =>
        { t with
          ucpLive := false,
          state := TState.GTTHREAD_DONE,
          retval := rv,
          joining := 0 })
      c (fun u => rfl) hfind2]
    exact ⟨rfl, rfl⟩
  · intro s target t h1 hmem hfind hrun
    have hft : findThread s.threads target = t := by
      unfold findThread
      rw [hfind]
      rfl
    have hget : thread_get { s with masked := true } target = some t := by
      unfold thread_get
      simp [hmem, hft]
    have hd : t.state ≠ TState.GTTHREAD_DONE := by
      rw [hrun]
      exact fun h => TState.noConfusion h
    have hcnc : t.state ≠ TState.GTTHREAD_CANCEL := by
      rw [hrun]
      exact fun h => TState.noConfusion h
    have hupd := findThread_updateThread_self s.threads target
      (fun u =>
        { u with
          state := TState.GTTHREAD_CANCEL,
          ucpLive := false,
          joining := 0 })
      t (fun u => rfl) hfind
    simp only [gtthread_cancel, gtthread_equal]
    rw [if_neg (by simpa using h1)]
    rw [hget]
    simp only [if_neg hd, if_neg hcnc]
    simp [hupd]

/-- Claim C10 witness: at concrete states — main joins the terminal
descriptor 2 and keeps joining = 2 afterwards; thread 3 joining the
descriptor 2 (which is joining 3) fails; a non-initial exit clears the
joining field of the exiting thread; cancelling thread 2 clears its
joining field. -/
theorem C10_witness :
    (findThread (gtthread_join [] sC4 2 true).1.threads 1).joining = 2 ∧
    (gtthread_join [] sC10b 2 true).2 = JoinRes.fail ∧
    ((findThread (gtthread_exit [] sC3 9).1.threads 2).joining = 0 ∧
      (findThread (gtthread_exit [] sC3 9).1.threads 2).state =
        TState.GTTHREAD_DONE) ∧
    (findThread (gtthread_cancel [] sC10 2).1.threads 2).joining = 0 :=
  ⟨(C10_joining_field).1 sC4 2 main_thread (by decide) (Or.inl (by decide))
      (by decide) (by decide) (by decide) (by decide),
   (C10_joining_field).2.1 [] sC10b 2 true (by decide) (Or.inl (by decide))
      (by decide),
   (C10_joining_field).2.2.1 sC3 9 3 [1] thr2R (by decide) (by decide)
      (by decide) (by decide),
   (C10_joining_field).2.2.2 sC10 2 thr2J (by decide) (by decide)
      (by decide) (by decide)⟩
